import Mathlib

/-!
Verification of the Server Room Cooling Monitor decision engine
(`data_manager.py`): the hysteresis evaluator, the manual-override
arbiter with its timer threads, the control engine's sensor/button
handlers, and the relay-state restore from the persistence store.

Temperatures and humidities are modelled as rationals (the Python code
only compares and formats them; no float-specific behaviour is relied
on by the properties below).  Python's `str(float)` formatting is
abstracted by a parameter `fmt : ℚ → String`.
-/

namespace ServerRoom

/-- Relay state, the string "ON"/"OFF" of the Python code as an enum. -/
inductive Relay
  | ON
  | OFF
deriving DecidableEq, Repr

/-- Wire string of a relay state, as interpolated by the Python f-strings. -/
def Relay.toStr : Relay → String
  | Relay.ON => "ON"
  | Relay.OFF => "OFF"

/-- `TEMP_HIGH_THRESHOLD = 28.0` from data_manager.py line 42. -/
def TEMP_HIGH_THRESHOLD : ℚ := 28

/-- `TEMP_LOW_THRESHOLD = 26.0` from data_manager.py line 43. -/
def TEMP_LOW_THRESHOLD : ℚ := 26

/-- `HUMIDITY_HIGH_THRESHOLD = 70.0` from data_manager.py line 44. -/
def HUMIDITY_HIGH_THRESHOLD : ℚ := 70

/-- `HUMIDITY_LOW_THRESHOLD = 65.0` from data_manager.py line 45. -/
def HUMIDITY_LOW_THRESHOLD : ℚ := 65

/-- `MANUAL_OVERRIDE_DURATION = 15` seconds, data_manager.py line 48. -/
def MANUAL_OVERRIDE_DURATION : Nat := 15

/-- Python `" OR ".join(reason)` as used at data_manager.py line 490. -/
def joinOr : List String → String
  | [] => ""
  | [r] => r
  | r :: rs => r ++ " OR " ++ joinOr rs

/-- The hysteresis evaluation of `_apply_hysteresis_logic`
(data_manager.py lines 477-497), after the manual-override check:
given the reading and the current relay status, returns the new status
and the trigger reason (`none` when no transition occurs).  `fmt`
abstracts Python's float-to-string formatting in the f-strings. -/
def applyHysteresisLogic (fmt : ℚ → String) (temperature humidity : ℚ)
    (relay_status : Relay) : Relay × Option String :=
  match relay_status with
  | Relay.OFF =>
      if temperature > TEMP_HIGH_THRESHOLD ∨ humidity > HUMIDITY_HIGH_THRESHOLD then
        let reason : List String :=
          (if temperature > TEMP_HIGH_THRESHOLD then
              ["temp " ++ fmt temperature ++ "°C > " ++ fmt TEMP_HIGH_THRESHOLD ++ "°C"]
            else []) ++
          (if humidity > HUMIDITY_HIGH_THRESHOLD then
              ["humidity " ++ fmt humidity ++ "% > " ++ fmt HUMIDITY_HIGH_THRESHOLD ++ "%"]
            else [])
        (Relay.ON, some (joinOr reason))
      else
        (Relay.OFF, none)
  | Relay.ON =>
      if temperature < TEMP_LOW_THRESHOLD ∧ humidity < HUMIDITY_LOW_THRESHOLD then
        (Relay.OFF, some ("temp " ++ fmt temperature ++ "°C < " ++ fmt TEMP_LOW_THRESHOLD ++
          "°C AND humidity " ++ fmt humidity ++ "% < " ++ fmt HUMIDITY_LOW_THRESHOLD ++ "%"))
      else
        (Relay.ON, none)

/-- Reason fragment for an exceeded temperature threshold (spec wording). -/
def tempHighReason (fmt : ℚ → String) (t : ℚ) : String :=
  "temp " ++ fmt t ++ "°C > " ++ fmt TEMP_HIGH_THRESHOLD ++ "°C"

/-- Reason fragment for an exceeded humidity threshold (spec wording). -/
def humHighReason (fmt : ℚ → String) (h : ℚ) : String :=
  "humidity " ++ fmt h ++ "% > " ++ fmt HUMIDITY_HIGH_THRESHOLD ++ "%"

/-- Reason for the conjunctive ON-to-OFF transition (spec wording). -/
def bothLowReason (fmt : ℚ → String) (t h : ℚ) : String :=
  "temp " ++ fmt t ++ "°C < " ++ fmt TEMP_LOW_THRESHOLD ++
  "°C AND humidity " ++ fmt h ++ "% < " ++ fmt HUMIDITY_LOW_THRESHOLD ++ "%"

/-- Reference evaluator written from the specification's words
(section 4.1): from OFF, transition to ON iff temperature exceeds the
high threshold or humidity does, the reason listing each exceeded
threshold joined by " OR "; from ON, transition to OFF iff both are
strictly below the low thresholds; otherwise the state is returned
unchanged with no reason. -/
def evaluateSpec (fmt : ℚ → String) (temperature humidity : ℚ)
    (currentState : Relay) : Relay × Option String :=
  match currentState with
  | Relay.OFF =>
      if temperature > TEMP_HIGH_THRESHOLD then
        if humidity > HUMIDITY_HIGH_THRESHOLD then
          (Relay.ON, some (tempHighReason fmt temperature ++ " OR " ++ humHighReason fmt humidity))
        else
          (Relay.ON, some (tempHighReason fmt temperature))
      else if humidity > HUMIDITY_HIGH_THRESHOLD then
        (Relay.ON, some (humHighReason fmt humidity))
      else
        (Relay.OFF, none)
  | Relay.ON =>
      if temperature < TEMP_LOW_THRESHOLD ∧ humidity < HUMIDITY_LOW_THRESHOLD then
        (Relay.OFF, some (bothLowReason fmt temperature humidity))
      else
        (Relay.ON, none)

/-- Log levels of the Python `logging` calls in the handlers. -/
inductive LogLevel
  | debug
  | info
  | warning
  | error
deriving DecidableEq, Repr

/-- Observable effects of the engine: MQTT publications, database
writes, and log records. -/
inductive Output
  | relayCmd (cmd : Relay)
  | alarmEvt (message : String) (level : String)
  | dbSensor (temperature humidity : ℚ)
  | dbAlarm (message : String)
  | log (lvl : LogLevel) (msg : String)
deriving DecidableEq, Repr

/-- True on MQTT relay-command publications. -/
def Output.isRelay : Output → Bool
  | Output.relayCmd _ => true
  | _ => false

/-- True on MQTT alarm publications. -/
def Output.isAlarm : Output → Bool
  | Output.alarmEvt _ _ => true
  | _ => false

/-- The mutable fields of `ServerRoomDataManager` that the handlers
touch (data_manager.py lines 211-221). -/
structure ManagerState where
  relay_status : Relay
  last_temperature : Option ℚ
  last_humidity : Option ℚ
  sensor_data_count : Nat
  alarm_count : Nat
  manual_override_active : Bool
  manual_override_end_time : Option ℚ
  is_connected : Bool
deriving DecidableEq, Repr

/-- Outputs of `_publish_relay_command` (lines 520-545): publishes the
command when connected, otherwise only logs a warning. -/
def publishRelayCommand (s : ManagerState) (command : Relay) : List Output :=
  if s.is_connected then [Output.relayCmd command]
  else [Output.log LogLevel.warning "Not connected to MQTT broker. Cannot publish relay command."]

/-- Outputs of `_publish_alarm` (lines 547-581): the published JSON
payload always carries `level = "warning"` (line 563); when
disconnected only a warning is logged. -/
def publishAlarmOuts (s : ManagerState) (message : String) : List Output :=
  if s.is_connected then [Output.alarmEvt message "warning"]
  else [Output.log LogLevel.warning "Not connected to MQTT broker. Cannot publish alarm."]

/-- The `alarm_count` after `_publish_alarm`: incremented exactly when
the publication succeeded (line 572). -/
def publishAlarmCount (s : ManagerState) : Nat :=
  if s.is_connected then s.alarm_count + 1 else s.alarm_count

/-- A JSON value in a sensor payload field, classified by how Python's
`float(...)` treats it: numbers and numeric strings convert, other
strings raise ValueError, `null` and composites raise TypeError. -/
inductive JVal
  | jnum (q : ℚ)
  | jstrNum (q : ℚ)
  | jstrBad
  | jnull
  | jcomposite
deriving DecidableEq, Repr

/-- An inbound sensor payload: unparseable JSON, a JSON value that is
not an object (`.get` then raises AttributeError), or an object with
optional `temp` and `hum` fields. -/
inductive Payload
  | invalidJson
  | nonObject
  | obj (temp hum : Option JVal)
deriving DecidableEq, Repr

/-- Python exception classes that `_handle_sensor_data` can raise
internally; all are caught by its two `except` clauses. -/
inductive PyErr
  | jsonDecodeError
  | valueError
  | typeError
  | attributeError
deriving DecidableEq, Repr

/-- Python `float(v)` on a JSON field value. -/
def pyFloat : JVal → Except PyErr ℚ
  | JVal.jnum q => Except.ok q
  | JVal.jstrNum q => Except.ok q
  | JVal.jstrBad => Except.error PyErr.valueError
  | JVal.jnull => Except.error PyErr.typeError
  | JVal.jcomposite => Except.error PyErr.typeError

/-- Lines 352-354: `json.loads(payload)` then
`float(data.get('temp', 0))` and `float(data.get('hum', 0))`; a
missing field defaults to `0`. -/
def parseSensorPayload : Payload → Except PyErr (ℚ × ℚ)
  | Payload.invalidJson => Except.error PyErr.jsonDecodeError
  | Payload.nonObject => Except.error PyErr.attributeError
  | Payload.obj temp hum => do
      let t ← pyFloat (temp.getD (JVal.jnum 0))
      let h ← pyFloat (hum.getD (JVal.jnum 0))
      pure (t, h)

/-- The log message each exception class produces: JSONDecodeError,
ValueError and KeyError hit the first `except` clause (line 376), every
other exception the generic one (line 379); both call `logger.error`. -/
def parseErrLog : PyErr → String
  | PyErr.jsonDecodeError => "Error parsing sensor data"
  | PyErr.valueError => "Error parsing sensor data"
  | PyErr.typeError => "Error handling sensor data"
  | PyErr.attributeError => "Error handling sensor data"

/-- The full `_apply_hysteresis_logic` method (lines 464-518): returns
unchanged under an active manual override; otherwise evaluates the
hysteresis and, on a transition, updates the relay status, publishes
the relay command, publishes the alarm and stores it in the database. -/
def applyHysteresisFull (fmt : ℚ → String) (s : ManagerState)
    (temperature humidity : ℚ) : ManagerState × List Output :=
  if s.manual_override_active then
    (s, [])
  else
    let old_status := s.relay_status
    let r := applyHysteresisLogic fmt temperature humidity old_status
    let new_status := r.1
    if new_status ≠ old_status then
      let trigger_reason := r.2.getD ""
      let alarm_message := "Cooling fan turned " ++ new_status.toStr ++ " - " ++ trigger_reason
      let s1 := { s with relay_status := new_status }
      ({ s1 with alarm_count := publishAlarmCount s1 },
        publishRelayCommand s1 new_status ++ publishAlarmOuts s1 alarm_message ++
          [Output.dbAlarm alarm_message])
    else
      (s, [])

/-- The `_handle_sensor_data` method (lines 343-380): parse the
payload; on failure catch the exception and log an error with no state
change; on success update the last-reading fields and the counter,
store the reading, then run the hysteresis step. -/
def handleSensorData (fmt : ℚ → String) (s : ManagerState) (payload : Payload) :
    ManagerState × List Output :=
  match parseSensorPayload payload with
  | Except.error e => (s, [Output.log LogLevel.error (parseErrLog e)])
  | Except.ok th =>
      let s1 := { s with
        last_temperature := some th.1
        last_humidity := some th.2
        sensor_data_count := s.sensor_data_count + 1 }
      let r2 := applyHysteresisFull fmt s1 th.1 th.2
      (r2.1, Output.dbSensor th.1 th.2 :: r2.2)

/-- A well-formed sensor payload carrying numeric `temp` and `hum`. -/
def okPayload (t h : ℚ) : Payload :=
  Payload.obj (some (JVal.jnum t)) (some (JVal.jnum h))

/-- Feeding a sequence of well-formed readings through
`_handle_sensor_data`, accumulating the outputs. -/
def processReadings (fmt : ℚ → String) (s : ManagerState) :
    List (ℚ × ℚ) → ManagerState × List Output
  | [] => (s, [])
  | r :: rs =>
      let p := handleSensorData fmt s (okPayload r.1 r.2)
      let q := processReadings fmt p.1 rs
      (q.1, p.2 ++ q.2)

/-- A representative startup state: relay OFF, no readings yet, no
override, connected to the broker. -/
def initState : ManagerState :=
  ManagerState.mk Relay.OFF none none 0 0 false none true

/-- The expiry alarm text of `timeout_callback` (line 457). -/
def expiryAlarmMsg : String :=
  "Manual override expired - Automatic control resumed"

/-- The body of `timeout_callback` (lines 448-459) as it executes when
the timer thread wakes: if the override flag is set, clear the window,
publish the expiry alarm and store it; the relay status is not
touched and no relay command is issued. -/
def timeoutCallback (s : ManagerState) : ManagerState × List Output :=
  if s.manual_override_active then
    let s1 := { s with
        manual_override_active := false
        manual_override_end_time := none }
    ({ s1 with alarm_count := publishAlarmCount s1 },
      publishAlarmOuts s1 expiryAlarmMsg ++ [Output.dbAlarm expiryAlarmMsg])
  else
    (s, [])

/-- A state with the manual override armed, used as concrete input. -/
def overrideState : ManagerState :=
  ManagerState.mk Relay.ON none none 0 0 true (some 15) true

/-- Python `message.lower()` (ASCII, as all stored alarm text is):
lower-case every character. -/
def pyLower (s : String) : String :=
  String.mk (s.toList.map Char.toLower)

/-- Python's substring test `needle in hay` on character lists. -/
def containsSeq (hay needle : List Char) : Bool :=
  match hay with
  | [] => needle.isEmpty
  | c :: t => needle.isPrefixOf (c :: t) || containsSeq t needle

/-- Python `needle in hay` on strings. -/
def strIn (needle hay : String) : Bool :=
  containsSeq hay.toList needle.toList

/-- Outcome of the alarm-history query in `_get_last_relay_state`
(lines 244-253): the database is unreachable (any exception), the
query matches no row, or it returns the most recent matching message. -/
inductive DbFetch
  | unreachable
  | noRow
  | row (message : String)
deriving DecidableEq, Repr

/-- The `_get_last_relay_state` method (lines 236-265): infer the last
relay state from the most recent matching alarm message, lower-cased;
default to "OFF" on exception, on no row, and when neither pattern
matches. -/
def getLastRelayState : DbFetch → String
  | DbFetch.unreachable => "OFF"
  | DbFetch.noRow => "OFF"
  | DbFetch.row msg =>
      let message := pyLower msg
      if strIn "fan on" message || strIn "turned on" message then "ON"
      else if strIn "fan off" message || strIn "turned off" message then "OFF"
      else "OFF"

/-- Override-arbiter state with wall-clock time made explicit, for the
timer-thread behaviour: `timers` holds the wake times of the spawned
(and never cancelled) `timeout_callback` threads, `alarms` the emitted
alarm messages with their emission times. -/
structure TimedState where
  relay : Relay
  manual_override_active : Bool
  manual_override_end_time : Option Nat
  timers : List Nat
  alarms : List (Nat × String)
deriving DecidableEq, Repr

/-- Initial timed state: relay OFF, no override, no pending timers. -/
def initTimed : TimedState :=
  TimedState.mk Relay.OFF false none [] []

/-- `_handle_button_press` followed by `_activate_manual_override`
(lines 382-462) at wall-clock time `now`: flip the relay, set the
override flag, set the window end to `now + D`, spawn a timer thread
that will wake at `now + D`, and emit the manual-toggle alarm.  The
previously spawned timer threads are left running. -/
def pressButton (now : Nat) (s : TimedState) : TimedState :=
  let new_status := match s.relay with
    | Relay.ON => Relay.OFF
    | Relay.OFF => Relay.ON
  TimedState.mk new_status true (some (now + MANUAL_OVERRIDE_DURATION))
    (s.timers ++ [now + MANUAL_OVERRIDE_DURATION])
    (s.alarms ++ [(now, "Manual button toggle: Fan " ++ new_status.toStr ++ " (was " ++
      s.relay.toStr ++ ") - Override active for " ++ Nat.repr MANUAL_OVERRIDE_DURATION ++ "s")])

/-- A spawned `timeout_callback` thread waking at time `now` (its sleep
of D seconds has elapsed): the thread checks `manual_override_active`
— the only guard in the code — and, if the flag is true, clears the
override and emits the expiry alarm.  Nothing compares the current
window's end time with the thread's own schedule. -/
def timerFires (now : Nat) (s : TimedState) : TimedState :=
  let s0 := { s with timers := s.timers.erase now }
  if s0.manual_override_active then
    { s0 with
        manual_override_active := false
        manual_override_end_time := none
        alarms := s0.alarms ++ [(now, expiryAlarmMsg)] }
  else
    s0

/-- C2: for every reading and current relay state, the code's hysteresis
evaluation coincides with the reference definition taken from the
spec's words: from OFF it goes to ON iff temperature > 28.0 or
humidity > 70.0 with the exceeded thresholds' reasons joined by
" OR "; from ON it goes to OFF iff temperature < 26.0 and
humidity < 65.0; otherwise the state is unchanged with no reason. -/
theorem C2_hysteresis_matches_spec (fmt : ℚ → String) (t h : ℚ) (s : Relay) :
    applyHysteresisLogic fmt t h s = evaluateSpec fmt t h s := by
  cases s with
  | OFF =>
      by_cases ht : t > TEMP_HIGH_THRESHOLD <;> by_cases hh : h > HUMIDITY_HIGH_THRESHOLD <;>
        simp [applyHysteresisLogic, evaluateSpec, joinOr, tempHighReason, humHighReason, ht, hh]
  | ON =>
      by_cases hl : t < TEMP_LOW_THRESHOLD ∧ h < HUMIDITY_LOW_THRESHOLD <;>
        simp [applyHysteresisLogic, evaluateSpec, bothLowReason, hl]

/-- C3: any reading inside the hysteresis band (26.0 ≤ temperature ≤ 28.0
and 65.0 ≤ humidity ≤ 70.0) leaves either current state unchanged with
no reason; in particular readings exactly at a threshold never trigger
a transition, all comparisons being strict. -/
theorem C3_band_no_transition (fmt : ℚ → String) (t h : ℚ) (s : Relay)
    (h1 : TEMP_LOW_THRESHOLD ≤ t) (h2 : t ≤ TEMP_HIGH_THRESHOLD)
    (h3 : HUMIDITY_LOW_THRESHOLD ≤ h) (h4 : h ≤ HUMIDITY_HIGH_THRESHOLD) :
    applyHysteresisLogic fmt t h s = (s, none) := by
  have nt : ¬ t > TEMP_HIGH_THRESHOLD := not_lt.mpr h2
  have nh : ¬ h > HUMIDITY_HIGH_THRESHOLD := not_lt.mpr h4
  have nl : ¬ t < TEMP_LOW_THRESHOLD := not_lt.mpr h1
  cases s <;> simp [applyHysteresisLogic, nt, nh, nl]

/-- Witness for C3 at the band's boundary: temperature 28.0 and humidity
65.0 leave state ON unchanged. -/
theorem C3_band_no_transition_witness :
    TEMP_LOW_THRESHOLD ≤ (28 : ℚ) ∧ (28 : ℚ) ≤ TEMP_HIGH_THRESHOLD ∧
    HUMIDITY_LOW_THRESHOLD ≤ (65 : ℚ) ∧ (65 : ℚ) ≤ HUMIDITY_HIGH_THRESHOLD ∧
    applyHysteresisLogic (fun _ => "") 28 65 Relay.ON = (Relay.ON, none) :=
  ⟨by decide, by decide, by decide, by decide,
    C3_band_no_transition (fun _ => "") 28 65 Relay.ON
      (by decide) (by decide) (by decide) (by decide)⟩

/-- C10: for a fixed reading the hysteresis evaluation is idempotent —
applying it to the state it just produced gives the same state, so a
transition can never be immediately reversed by the same reading. -/
theorem C10_hysteresis_idempotent (fmt : ℚ → String) (t h : ℚ) (s : Relay) :
    (applyHysteresisLogic fmt t h (applyHysteresisLogic fmt t h s).1).1 =
      (applyHysteresisLogic fmt t h s).1 := by
  have hTT : TEMP_LOW_THRESHOLD < TEMP_HIGH_THRESHOLD := by decide
  have hHH : HUMIDITY_LOW_THRESHOLD < HUMIDITY_HIGH_THRESHOLD := by decide
  cases s with
  | OFF =>
      by_cases hon : t > TEMP_HIGH_THRESHOLD ∨ h > HUMIDITY_HIGH_THRESHOLD
      · have noff : ¬ (t < TEMP_LOW_THRESHOLD ∧ h < HUMIDITY_LOW_THRESHOLD) := by
          rintro ⟨hlt, hlh⟩
          rcases hon with hx | hx
          · exact absurd (lt_trans hTT hx) (not_lt.mpr (le_of_lt hlt))
          · exact absurd (lt_trans hHH hx) (not_lt.mpr (le_of_lt hlh))
        simp [applyHysteresisLogic, hon, noff]
      · simp [applyHysteresisLogic, hon]
  | ON =>
      by_cases hoff : t < TEMP_LOW_THRESHOLD ∧ h < HUMIDITY_LOW_THRESHOLD
      · have non : ¬ (t > TEMP_HIGH_THRESHOLD ∨ h > HUMIDITY_HIGH_THRESHOLD) := by
          rintro (hx | hx)
          · exact absurd (lt_trans hTT hx) (not_lt.mpr (le_of_lt hoff.1))
          · exact absurd (lt_trans hHH hx) (not_lt.mpr (le_of_lt hoff.2))
        simp [applyHysteresisLogic, hoff, non]
      · simp [applyHysteresisLogic, hoff]


/-- Under an active override, one well-formed reading only updates the
last-reading fields and the counter and records the reading. -/
lemma handleSensorData_override (fmt : ℚ → String) (s : ManagerState) (t h : ℚ)
    (hov : s.manual_override_active = true) :
    handleSensorData fmt s (okPayload t h) =
      ({ s with
          last_temperature := some t
          last_humidity := some h
          sensor_data_count := s.sensor_data_count + 1 },
        [Output.dbSensor t h]) := by
  simp [handleSensorData, okPayload, parseSensorPayload, pyFloat, applyHysteresisFull, hov,
    Except.bind, bind, pure, Except.pure]

/-- C4: while the manual-override flag is active, processing any
sequence of sensor readings leaves the relay state unchanged and
publishes no relay command (the evaluator output is discarded), while
every reading is still recorded to the persistence store. -/
theorem C4_override_suppresses_auto (fmt : ℚ → String) (s : ManagerState)
    (rs : List (ℚ × ℚ)) (hov : s.manual_override_active = true) :
    (processReadings fmt s rs).1.relay_status = s.relay_status ∧
    (∀ r ∈ rs, Output.dbSensor r.1 r.2 ∈ (processReadings fmt s rs).2) ∧
    (∀ c, Output.relayCmd c ∉ (processReadings fmt s rs).2) := by
  induction rs generalizing s with
  | nil => simp [processReadings]
  | cons r rs ih =>
      have hstep := handleSensorData_override fmt s r.1 r.2 hov
      have hrec := ih { s with
          last_temperature := some r.1
          last_humidity := some r.2
          sensor_data_count := s.sensor_data_count + 1 } hov
      refine ⟨?_, ?_, ?_⟩
      · simp only [processReadings, hstep]
        exact hrec.1
      · intro x hx
        rcases List.mem_cons.mp hx with hx | hx
        · subst hx
          simp [processReadings, hstep]
        · simp only [processReadings, hstep, List.mem_append]
          exact Or.inr (hrec.2.1 x hx)
      · intro c
        simp only [processReadings, hstep, List.mem_append, List.mem_singleton]
        rintro (hc | hc)
        · cases hc
        · exact hrec.2.2 c hc

/-- Witness for C4: with the override armed and relay OFF, a reading of
30°C / 80% (which would otherwise switch the relay ON) leaves the relay
OFF and is still recorded. -/
theorem C4_override_suppresses_auto_witness :
    (ManagerState.mk Relay.OFF none none 0 0 true (some 15) true).manual_override_active
        = true ∧
    ((processReadings (fun _ => "")
        (ManagerState.mk Relay.OFF none none 0 0 true (some 15) true)
        [(30, 80)]).1.relay_status
        = (ManagerState.mk Relay.OFF none none 0 0 true (some 15) true).relay_status ∧
      (∀ r ∈ [((30 : ℚ), (80 : ℚ))], Output.dbSensor r.1 r.2 ∈
        (processReadings (fun _ => "")
          (ManagerState.mk Relay.OFF none none 0 0 true (some 15) true) [(30, 80)]).2) ∧
      (∀ c, Output.relayCmd c ∉
        (processReadings (fun _ => "")
          (ManagerState.mk Relay.OFF none none 0 0 true (some 15) true) [(30, 80)]).2)) :=
  ⟨rfl, C4_override_suppresses_auto (fun _ => "")
    (ManagerState.mk Relay.OFF none none 0 0 true (some 15) true) [(30, 80)] rfl⟩


/-- C8: the configured hysteresis band is consistent — the hard-coded
thresholds satisfy low < high for both signals, so every run of the
process operates with a consistent band (inconsistent configuration is
not representable at runtime). -/
theorem C8_band_ordering :
    TEMP_LOW_THRESHOLD < TEMP_HIGH_THRESHOLD ∧
    HUMIDITY_LOW_THRESHOLD < HUMIDITY_HIGH_THRESHOLD := by
  decide

/-- Without an override, one well-formed reading updates the
last-reading fields, records the reading, and runs the hysteresis
step on the updated state. -/
lemma handleSensorData_ok (fmt : ℚ → String) (s : ManagerState) (t h : ℚ) :
    handleSensorData fmt s (okPayload t h) =
      (let s1 : ManagerState := { s with
          last_temperature := some t
          last_humidity := some h
          sensor_data_count := s.sensor_data_count + 1 }
       let r2 := applyHysteresisFull fmt s1 t h
       (r2.1, Output.dbSensor t h :: r2.2)) := rfl

/-- C5: while connected, processing a well-formed sensor reading
publishes a relay command or an alarm iff the relay state changes, and
on a change publishes exactly one of each; with no change the only
effect beyond the handler's own bookkeeping is recording the reading. -/
theorem C5_transition_pairs_publications (fmt : ℚ → String) (s : ManagerState)
    (t h : ℚ) (hc : s.is_connected = true) :
    ((handleSensorData fmt s (okPayload t h)).1.relay_status ≠ s.relay_status →
      (((handleSensorData fmt s (okPayload t h)).2.filter Output.isRelay).length = 1 ∧
       ((handleSensorData fmt s (okPayload t h)).2.filter Output.isAlarm).length = 1)) ∧
    ((handleSensorData fmt s (okPayload t h)).1.relay_status = s.relay_status →
      (handleSensorData fmt s (okPayload t h)).2 = [Output.dbSensor t h]) := by
  by_cases hov : s.manual_override_active = true
  · rw [handleSensorData_override fmt s t h hov]
    constructor
    · intro hne
      simp at hne
    · intro _
      rfl
  · replace hov : s.manual_override_active = false := by
      simpa using hov
    rw [handleSensorData_ok]
    simp only [applyHysteresisFull, hov, if_false, Bool.false_eq_true]
    by_cases htr : (applyHysteresisLogic fmt t h s.relay_status).1 = s.relay_status
    · simp [htr, List.filter, Output.isRelay, Output.isAlarm]
    · simp [htr, publishRelayCommand, publishAlarmOuts, hc, List.filter,
        Output.isRelay, Output.isAlarm]

/-- Witness for C5 at a transition: from the connected startup state,
the reading 29°C / 50% flips the relay and pairs the publications. -/
theorem C5_transition_pairs_publications_witness :
    initState.is_connected = true ∧
    (((handleSensorData (fun _ => "") initState (okPayload 29 50)).1.relay_status ≠
        initState.relay_status →
      (((handleSensorData (fun _ => "") initState (okPayload 29 50)).2.filter
          Output.isRelay).length = 1 ∧
       ((handleSensorData (fun _ => "") initState (okPayload 29 50)).2.filter
          Output.isAlarm).length = 1)) ∧
    ((handleSensorData (fun _ => "") initState (okPayload 29 50)).1.relay_status =
        initState.relay_status →
      (handleSensorData (fun _ => "") initState (okPayload 29 50)).2 =
        [Output.dbSensor 29 50])) :=
  ⟨rfl, C5_transition_pairs_publications (fun _ => "") initState 29 50 rfl⟩

/-- C6 counterexample: an unparseable payload is dropped, but the log
record the handler emits has level `error`, not `warning` — the claim's
"logged warning" does not match the code's `logger.error` call. -/
theorem C6_log_level_counterexample :
    handleSensorData (fun _ => "") initState Payload.invalidJson =
      (initState, [Output.log LogLevel.error "Error parsing sensor data"]) ∧
    LogLevel.error ≠ LogLevel.warning :=
  ⟨rfl, by decide⟩

/-- C6 amended: every malformed payload (unparseable JSON, non-object
JSON, or non-numeric temperature/humidity fields) is dropped with a
logged error; the state is returned unchanged and the handler returns
normally, every exception being caught by the two except clauses. -/
theorem C6_malformed_dropped (fmt : ℚ → String) (s : ManagerState) (p : Payload)
    (e : PyErr) (he : parseSensorPayload p = Except.error e) :
    handleSensorData fmt s p = (s, [Output.log LogLevel.error (parseErrLog e)]) := by
  simp [handleSensorData, he]

/-- Witness for C6 on a payload with a non-numeric humidity field. -/
theorem C6_malformed_dropped_witness :
    parseSensorPayload (Payload.obj (some (JVal.jnum 25)) (some JVal.jstrBad)) =
      Except.error PyErr.valueError ∧
    handleSensorData (fun _ => "") initState
        (Payload.obj (some (JVal.jnum 25)) (some JVal.jstrBad)) =
      (initState, [Output.log LogLevel.error (parseErrLog PyErr.valueError)]) :=
  ⟨rfl, C6_malformed_dropped (fun _ => "") initState
    (Payload.obj (some (JVal.jnum 25)) (some JVal.jstrBad)) PyErr.valueError rfl⟩

/-- C7 counterexample: the expiry alarm published by `timeout_callback`
carries level "warning" — `_publish_alarm` hard-codes `"warning"` for
every alarm — not the informational level "info" the claim states. -/
theorem C7_expiry_level_counterexample :
    (timeoutCallback overrideState).2 =
      [Output.alarmEvt expiryAlarmMsg "warning", Output.dbAlarm expiryAlarmMsg] ∧
    ("warning" : String) ≠ "info" :=
  ⟨rfl, by decide⟩

/-- C7 amended: on expiry with no re-arm the window is cleared, the
expiry alarm is published with level "warning" and stored, the relay
state is untouched and no relay command is published. -/
theorem C7_expiry_behavior (s : ManagerState)
    (hov : s.manual_override_active = true) (hc : s.is_connected = true) :
    (timeoutCallback s).1.manual_override_active = false ∧
    (timeoutCallback s).1.manual_override_end_time = none ∧
    (timeoutCallback s).1.relay_status = s.relay_status ∧
    (timeoutCallback s).2 =
      [Output.alarmEvt expiryAlarmMsg "warning", Output.dbAlarm expiryAlarmMsg] ∧
    (∀ c, Output.relayCmd c ∉ (timeoutCallback s).2) := by
  simp [timeoutCallback, hov, publishAlarmOuts, hc]

/-- Witness for C7 at a concrete armed, connected state. -/
theorem C7_expiry_behavior_witness :
    overrideState.manual_override_active = true ∧ overrideState.is_connected = true ∧
    ((timeoutCallback overrideState).1.manual_override_active = false ∧
     (timeoutCallback overrideState).1.manual_override_end_time = none ∧
     (timeoutCallback overrideState).1.relay_status = overrideState.relay_status ∧
     (timeoutCallback overrideState).2 =
       [Output.alarmEvt expiryAlarmMsg "warning", Output.dbAlarm expiryAlarmMsg] ∧
     (∀ c, Output.relayCmd c ∉ (timeoutCallback overrideState).2)) :=
  ⟨rfl, rfl, C7_expiry_behavior overrideState rfl rfl⟩

/-- C9: the relay-state restore returns "OFF" when the store is
unreachable, when the query matches no row, and when the stored text
matches neither the ON nor the OFF pattern; on every input the result
is exactly "ON" or "OFF". -/
theorem C9_restore_defaults (r : DbFetch) (m : String)
    (hOn : (strIn "fan on" (pyLower m) || strIn "turned on" (pyLower m)) = false)
    (hOff : (strIn "fan off" (pyLower m) || strIn "turned off" (pyLower m)) = false) :
    getLastRelayState DbFetch.unreachable = "OFF" ∧
    getLastRelayState DbFetch.noRow = "OFF" ∧
    getLastRelayState (DbFetch.row m) = "OFF" ∧
    (getLastRelayState r = "ON" ∨ getLastRelayState r = "OFF") := by
  refine ⟨rfl, rfl, ?_, ?_⟩
  · simp [getLastRelayState, hOn, hOff]
  · cases r with
    | unreachable => exact Or.inr rfl
    | noRow => exact Or.inr rfl
    | row msg =>
        simp only [getLastRelayState]
        split_ifs <;> simp

/-- Witness for C9 on a message matching neither pattern. -/
theorem C9_restore_defaults_witness :
    (strIn "fan on" (pyLower "hello") || strIn "turned on" (pyLower "hello")) = false ∧
    (strIn "fan off" (pyLower "hello") || strIn "turned off" (pyLower "hello")) = false ∧
    (getLastRelayState DbFetch.unreachable = "OFF" ∧
     getLastRelayState DbFetch.noRow = "OFF" ∧
     getLastRelayState (DbFetch.row "hello") = "OFF" ∧
     (getLastRelayState (DbFetch.row "hello") = "ON" ∨
      getLastRelayState (DbFetch.row "hello") = "OFF")) :=
  ⟨by decide, by decide,
    C9_restore_defaults (DbFetch.row "hello") "hello" (by decide) (by decide)⟩

/-- C1: evaluating the code on the claim's own scenario — presses at
t=0 and t=5 with D=15 — shows the stale expiry DOES fire: after the
second press the window ends at t=20 and the first press's timer (wake
time 15) is still pending; when that thread wakes at t=15 the only
guard it has, `manual_override_active`, is true (the re-arm set it
again), so it clears the override and emits the expiry alarm at t=15;
the second timer at t=20 then finds the flag false and does nothing. -/
theorem C1_stale_expiry_fires :
    (pressButton 5 (pressButton 0 initTimed)).manual_override_active = true ∧
    (pressButton 5 (pressButton 0 initTimed)).manual_override_end_time = some 20 ∧
    15 ∈ (pressButton 5 (pressButton 0 initTimed)).timers ∧
    (timerFires 15 (pressButton 5 (pressButton 0 initTimed))).manual_override_active = false ∧
    (15, expiryAlarmMsg) ∈ (timerFires 15 (pressButton 5 (pressButton 0 initTimed))).alarms ∧
    (timerFires 20 (timerFires 15 (pressButton 5 (pressButton 0 initTimed)))).alarms =
      (timerFires 15 (pressButton 5 (pressButton 0 initTimed))).alarms := by
  decide

end ServerRoom
